import Mathlib

/-!
# Verification of the landhubproject Plot Data Synchronization & Rendering core

Shallow embedding (over `ℚ` for JavaScript numbers, `String` for JS strings,
`Option` for possibly-absent values, `Except` for thrown errors) of:

* `src/services/plotService.ts` — `normalizeStatus`, `checkApiHealth`,
  the applicant validation inside `PlotService.createOrder`, and the
  per-feature transforms of `getAllPlots`, `getPlotById`, `searchPlots`;
* `src/services/mockDataService.ts` — `MockDataService.createOrder`;
* `src/components/MapView.tsx` — `getPlotStyle`, the `selectedPlotId`
  style-override effect, `isValidGeometry`, `getPolygonCentroid`,
  `createPopupContent`'s order-action gate, `handlePlotClick`, and
  `handleOrderSubmit` (optimistic reservation with rollback).

JavaScript `number` is modelled by `ℚ` (exact arithmetic; the embedded
algorithms use only comparisons, `+`, `-`, `*`, `/` on values where the
claims under study are about the algorithm, not IEEE-754 rounding), with
`NaN` / non-finite values represented explicitly where the code tests for
them.
-/

namespace LandHub

/-- The normalized plot status union type `"available" | "taken" | "pending"`
from `types/land`. -/
inductive PlotStatus where
  | available
  | taken
  | pending
deriving DecidableEq, Repr

/-- String rendering of a `PlotStatus`, as it appears in JS template
strings such as the mock service's error message. -/
def PlotStatus.toStr : PlotStatus → String
  | .available => "available"
  | .taken => "taken"
  | .pending => "pending"

/-- Embeds `normalizeStatus` (plotService.ts lines 19–24): any status other
than the three recognized strings — including `null`/`undefined`, modelled
by `none` — falls back to `"pending"`. -/
def normalizeStatus : Option String → PlotStatus
  | some "available" => .available
  | some "taken" => .taken
  | some "pending" => .pending
  | _ => .pending

/-- The `Plot` entity as used by the map view and the mock service.
Geometry, attributes and timestamps are omitted: no embedded operation
reads them (the geometry functions below take geometry directly). -/
structure Plot where
  id : String
  plot_code : String
  status : PlotStatus
  area_hectares : ℚ
  district : String
  ward : String
  village : String
deriving DecidableEq, Repr

/-- Leaflet path style options produced by `getPlotStyle` and the
selection effect.  `weight` is the stroke weight, `color` the stroke
color, `fillColor` the fill color. -/
structure PathStyle where
  weight : ℕ
  color : String
  fillOpacity : ℚ
  opacity : ℚ
  fillColor : String
  dashArray : Option String
deriving DecidableEq, Repr

/-- Embeds `getPlotStyle` (MapView.tsx lines 37–72).  The status is taken
as a raw `String` because the `switch` has a `default` branch for values
outside the declared union. -/
def getPlotStyle (status : String) (isHovered : Bool) : PathStyle :=
  let baseStyle : PathStyle :=
    { weight := if isHovered then 4 else 2
      color := "#ffffff"
      fillOpacity := if isHovered then 0.9 else 0.7
      opacity := 1
      fillColor := ""
      dashArray := none }
  if status = "available" then
    { baseStyle with fillColor := "#10B981", dashArray := none }
  else if status = "taken" then
    { baseStyle with fillColor := "#EF4444"
                     fillOpacity := if isHovered then 0.8 else 0.6
                     dashArray := none }
  else if status = "pending" then
    { baseStyle with fillColor := "#F59E0B", dashArray := some "8,4" }
  else
    { baseStyle with fillColor := "#6B7280", dashArray := none }

/-- Embeds the `selectedPlotId` highlighting effect (MapView.tsx lines
793–805): the layer whose feature id matches the selection gets
`{...getPlotStyle(status), weight: 4, color: "#3B82F6"}`. -/
def selectedPlotStyle (status : String) : PathStyle :=
  { getPlotStyle status false with weight := 4, color := "#3B82F6" }

/-- Embeds the order-action branch of `createPopupContent` (MapView.tsx
lines 277–299): the "Order This Plot" button is created only for
`status === "available"`; otherwise a static status text is shown. -/
def popupOrderAction (status : PlotStatus) : Option String :=
  if status = .available then some "Order This Plot" else none

/-- Embeds the guard of `handlePlotClick` (MapView.tsx lines 305–316): the
order modal opens only for an available plot. -/
def handlePlotClickOpensModal (status : PlotStatus) : Bool :=
  status = .available

/-! ## Geometry validation (`isValidGeometry`, MapView.tsx lines 88–150) -/

/-- A JSON-ish runtime value as far as `isValidGeometry` can observe it:
a finite number, `NaN`, a non-finite non-`NaN` number (`±Infinity`), an
array, or any other value (string, object, `null`, boolean, …). -/
inductive JVal where
  | num (q : ℚ)
  | nan
  | inf
  | arr (elems : List JVal)
  | other

/-- A raw `geometry` object: its `type` field (`none` for a missing or
falsy value) and its `coordinates` field (`none` for missing/falsy). -/
structure RawGeometry where
  gtype : Option String
  coordinates : Option JVal

/-- Embeds the inner `isValidCoordinate` (MapView.tsx lines 94–113):
the value must be an array of length ≥ 2 whose first two entries are
finite numbers inside the Tanzania bounding box
(`lng < 29 || lng > 41 || lat < -12 || lat > -0.5` rejects). -/
def isValidCoordinate : JVal → Bool
  | .arr (a :: b :: _) =>
    match a, b with
    | .num lng, .num lat =>
      if lng < 29 ∨ lng > 41 ∨ lat < -12 ∨ lat > -0.5 then false else true
    | _, _ => false
  | _ => false

/-- The per-ring check shared by both branches of `isValidGeometry`:
`Array.isArray(ring) && ring.length >= 4 && ring.every(isValidCoordinate)`. -/
def ringOk : JVal → Bool
  | .arr cs => decide (4 ≤ cs.length) && cs.all isValidCoordinate
  | _ => false

/-- Embeds `isValidGeometry` (MapView.tsx lines 88–150).  Missing/falsy
`type` or `coordinates` fail immediately; `Polygon` requires a non-empty
array of valid rings; `MultiPolygon` requires a non-empty array of
non-empty arrays of valid rings; any other `type` fails. -/
def isValidGeometry (g : RawGeometry) : Bool :=
  match g.gtype, g.coordinates with
  | some t, some coords =>
    if t = "" then false
    else if t = "Polygon" then
      match coords with
      | .arr rings => decide (0 < rings.length) && rings.all ringOk
      | _ => false
    else if t = "MultiPolygon" then
      match coords with
      | .arr polys =>
        decide (0 < polys.length) && polys.all fun poly =>
          match poly with
          | .arr rings => decide (0 < rings.length) && rings.all ringOk
          | _ => false
      | _ => false
    else false
  | _, _ => false

/-- The list of values occupying ring positions in a geometry: the
elements of `coordinates` for a `Polygon`, the elements of the (array)
elements of `coordinates` for a `MultiPolygon`, `[]` otherwise. -/
def geomRings (g : RawGeometry) : List JVal :=
  match g.gtype, g.coordinates with
  | some "Polygon", some (.arr rings) => rings
  | some "MultiPolygon", some (.arr polys) =>
    polys.flatMap fun poly =>
      match poly with
      | .arr rings => rings
      | _ => []
  | _, _ => []

/-- The coordinate value is an array whose first two entries are finite
numbers — the structural half of the spec's "two finite real numbers". -/
def coordTwoFinite (c : JVal) : Prop :=
  ∃ lng lat rest, c = .arr (.num lng :: .num lat :: rest)

/-- The coordinate, when structurally well-formed, lies inside the
configured operating-region bounding box (lng 29..41, lat -12..-0.5). -/
def coordInBounds (c : JVal) : Prop :=
  ∀ lng lat rest, c = .arr (.num lng :: .num lat :: rest) →
    29 ≤ lng ∧ lng ≤ 41 ∧ -12 ≤ lat ∧ lat ≤ -0.5

/-! ## Centroid calculation (`getPolygonCentroid`, MapView.tsx lines 153–183)

The loop `for (let i = 0; i < ring.length - 1; i++)` visits the
consecutive pairs of the ring, i.e. `ring.zip ring.tail`. -/

/-- The consecutive pairs `(ring[i], ring[i+1])` visited by the loop. -/
def ringPairs (ring : List (ℚ × ℚ)) : List ((ℚ × ℚ) × (ℚ × ℚ)) :=
  ring.zip ring.tail

/-- The loop's `a = x0 * y1 - x1 * y0` cross term. -/
def crossT (p q : ℚ × ℚ) : ℚ := p.1 * q.2 - q.1 * p.2

/-- The accumulated `area` after the loop (before the `*= 0.5`). -/
def shoelaceSum (ring : List (ℚ × ℚ)) : ℚ :=
  ((ringPairs ring).map fun pq => crossT pq.1 pq.2).sum

/-- The accumulated `x` after the loop: `Σ (x0 + x1) * a`. -/
def centXSum (ring : List (ℚ × ℚ)) : ℚ :=
  ((ringPairs ring).map fun pq => (pq.1.1 + pq.2.1) * crossT pq.1 pq.2).sum

/-- The accumulated `y` after the loop: `Σ (y0 + y1) * a`. -/
def centYSum (ring : List (ℚ × ℚ)) : ℚ :=
  ((ringPairs ring).map fun pq => (pq.1.2 + pq.2.2) * crossT pq.1 pq.2).sum

/-- Embeds `getPolygonCentroid` (MapView.tsx lines 153–183): takes the
first ring; a missing or short (< 4 points) ring yields the sentinel
`[0, 0]`; a ring whose accumulated signed area has magnitude below
`1e-10` yields the arithmetic mean of the ring entries; otherwise the
shoelace-weighted centroid `x / (6 * area)`, `y / (6 * area)` with
`area` halved first.  The function is total: the `try`/`catch` in the
source has no failing path in this model. -/
def getPolygonCentroid (coordinates : List (List (ℚ × ℚ))) : ℚ × ℚ :=
  match coordinates.head? with
  | none => (0, 0)
  | some ring =>
    if ring.length < 4 then (0, 0)
    else
      let area := shoelaceSum ring
      if |area| < 1 / 10 ^ 10 then
        (((ring.map Prod.fst).sum) / (ring.length : ℚ),
         ((ring.map Prod.snd).sum) / (ring.length : ℚ))
      else
        let area2 := area * (1 / 2)
        (centXSum ring / (6 * area2), centYSum ring / (6 * area2))

/-- Signed area of the fan triangle `(o, p, q)` (doubled): the building
block of the containment proof for the weighted centroid. -/
def fanTerm (o p q : ℚ × ℚ) : ℚ :=
  (p.1 - o.1) * (q.2 - o.2) - (q.1 - o.1) * (p.2 - o.2)

/-- A ring is fan-signed when all fan triangles from its first vertex
have the same orientation sign.  Every convex polygon ring traversed in
a single orientation satisfies this (the fan triangulation of a convex
polygon from one of its vertices consists of uniformly oriented
triangles), so theorems assuming `FanSigned` apply to every valid convex
polygon ring in either orientation. -/
def FanSigned (o : ℚ × ℚ) (ring : List (ℚ × ℚ)) : Prop :=
  (∀ pq ∈ ringPairs ring, 0 ≤ fanTerm o pq.1 pq.2) ∨
  (∀ pq ∈ ringPairs ring, fanTerm o pq.1 pq.2 ≤ 0)

/-! ## Connectivity health gate (`checkApiHealth`, plotService.ts lines 27–61) -/

/-- The module-level health cache: `lastHealthCheck` and `isHealthy`
(plotService.ts lines 16–17). -/
structure HealthState where
  lastHealthCheck : ℕ
  isHealthy : Bool
deriving DecidableEq, Repr

/-- Embeds `checkApiHealth` on the API path (`USE_MOCK_DATA = false`; on
the mock path the function returns `true` without touching the cache).
`now` is `Date.now()` and `probeOk` the outcome of the probe that would
be issued (`response.ok`, with a thrown fetch error modelled as
`probeOk = false`).  Returns the boolean result, the updated cache, and
whether a probe was issued.  JS computes `now - lastHealthCheck` exactly;
`ℕ` subtraction truncates at 0, which satisfies `< 30000` exactly when
the JS difference does for any `now`, so the gate agrees. -/
def checkApiHealth (st : HealthState) (now : ℕ) (probeOk : Bool) :
    Bool × HealthState × Bool :=
  if now - st.lastHealthCheck < 30000 ∧ st.isHealthy then
    (st.isHealthy, st, false)
  else
    (probeOk, ⟨now, probeOk⟩, true)

/-! ## Reservation flow

`PlotService.createOrder` (plotService.ts lines 284–332, API path),
`MockDataService.createOrder` (mockDataService.ts lines 158–193), and
`handleOrderSubmit` (MapView.tsx lines 701–737). -/

/-- The applicant fields of `OrderData` (as read by the services). -/
structure OrderData where
  first_name : String
  last_name : String
  customer_phone : String
  customer_email : String
  customer_id_number : String
  intended_use : String
deriving DecidableEq, Repr

/-- An `Order` record as built by the mock backend. -/
structure MOrder where
  id : String
  plot_id : String
  plot_code : String
  first_name : String
  last_name : String
  customer_phone : String
  customer_email : String
  customer_id_number : String
  intended_use : String
  status : String
deriving DecidableEq, Repr

/-- JavaScript `String.prototype.trim`: strip leading and trailing
whitespace (implemented over the character list). -/
def jsTrim (s : String) : String :=
  ⟨((s.data.dropWhile Char.isWhitespace).reverse.dropWhile
      Char.isWhitespace).reverse⟩

/-- Language of the regex `/^[^\s@]+@[^\s@]+\.[^\s@]+$/` used by
`PlotService.createOrder`: exactly one `@`, a non-empty whitespace-free
local part before it, and after it a whitespace-free part containing a
`.` that is neither its first nor its last character. -/
def emailRegexTest (s : String) : Bool :=
  match s.toList.splitOn '@' with
  | [a, d] =>
    decide (a ≠ []) && a.all (fun c => !c.isWhitespace) &&
      d.all (fun c => !c.isWhitespace) && ((d.drop 1).dropLast).contains '.'
  | _ => false

/-- Embeds the applicant validation at the head of
`PlotService.createOrder` (plotService.ts lines 292–313): trimmed
first/last name, phone and email must be non-empty, and the email must
match the address pattern.  Returns the thrown error message, or `none`
when validation passes. -/
def validateOrderData (od : OrderData) : Option String :=
  if jsTrim od.first_name = "" then some "First name is required"
  else if jsTrim od.last_name = "" then some "Last name is required"
  else if jsTrim od.customer_phone = "" then some "Customer phone is required"
  else if jsTrim od.customer_email = "" then some "Customer email is required"
  else if !emailRegexTest od.customer_email then
    some "Please enter a valid email address"
  else none

/-- Embeds `PlotService.createOrder` on the API path
(`USE_MOCK_DATA = false`): validation first; then
`fetchWithErrorHandling` checks API health and throws before any fetch
when unhealthy; only then is the POST issued, whose outcome is the
`remote` parameter.  The catch block re-throws the original error
unchanged.  Returns the outcome and whether a network request was
issued. -/
def PlotService.createOrder (od : OrderData) (healthy : Bool)
    (remote : Except String MOrder) : Except String MOrder × Bool :=
  match validateOrderData od with
  | some e => (.error e, false)
  | none =>
    if healthy then (remote, true)
    else
      (.error "API server is not responding. Please check your connection and try again.",
       false)

/-- The MapView component state touched by `handleOrderSubmit`:
`plots`, the last rendered plot list (`renderPlots` argument), the
selected plot, the modal flag and the order error banner. -/
structure UIState where
  plots : List Plot
  rendered : List Plot
  selectedPlot : Option Plot
  isModalOpen : Bool
  orderError : Option String
deriving DecidableEq, Repr

/-- The optimistic update `plots.map(p => p.id === selectedPlot.id ?
{...p, status: "pending"} : p)`. -/
def optimisticUpdate (plots : List Plot) (selId : String) : List Plot :=
  plots.map fun p => if p.id = selId then { p with status := .pending } else p

/-- Status of the plot with the given id in a plot list. -/
def statusOf (plots : List Plot) (pid : String) : Option PlotStatus :=
  (plots.find? fun p => p.id = pid).map Plot.status

/-- One run of `handleOrderSubmit`: `mid` is the component state right
after the optimistic `setPlots`/`renderPlots` and before the `await`
(`none` when no plot is selected and the function returns early),
`final` the state after the `try`/`catch` completes, and `network`
whether `PlotService.createOrder` issued a network request. -/
structure SubmitRun where
  mid : Option UIState
  final : UIState
  network : Bool
deriving DecidableEq, Repr

/-- Embeds `handleOrderSubmit` (MapView.tsx lines 701–737) as a single
reservation attempt.  On success the optimistic state is kept and the
modal closes; on failure `setPlots(plots)` restores the captured
pre-call list, `renderPlots(plots)` re-renders it, and the error banner
is set from the original error's message. -/
def handleOrderSubmit (st : UIState) (od : OrderData) (healthy : Bool)
    (remote : Except String MOrder) : SubmitRun :=
  match st.selectedPlot with
  | none => ⟨none, { st with orderError := some "No plot selected." }, false⟩
  | some sel =>
    let optimistic := optimisticUpdate st.plots sel.id
    let st1 : UIState :=
      { st with plots := optimistic, rendered := optimistic, orderError := none }
    match PlotService.createOrder od healthy remote with
    | (.ok _, nc) =>
      ⟨some st1, { st1 with selectedPlot := none, isModalOpen := false }, nc⟩
    | (.error e, nc) =>
      ⟨some st1,
       { st1 with plots := st.plots, rendered := st.plots,
                  orderError := some ("Failed to submit order: " ++ e) },
       nc⟩

/-- The synchronous prefix of `handleOrderSubmit` up to its `await`:
clear the error banner, apply the optimistic update and render it. -/
def submitPhaseA (st : UIState) (sel : Plot) : UIState :=
  let optimistic := optimisticUpdate st.plots sel.id
  { st with plots := optimistic, rendered := optimistic, orderError := none }

/-- The continuation of `handleOrderSubmit` after its `await` resolves.
`captPlots` is the `plots` value captured by the callback's closure
(used by the rollback `setPlots(plots)`). -/
def submitResume (captPlots : List Plot) (result : Except String MOrder)
    (st : UIState) : UIState :=
  match result with
  | .ok _ => { st with selectedPlot := none, isModalOpen := false }
  | .error e =>
    { st with plots := captPlots, rendered := captPlots,
              orderError := some ("Failed to submit order: " ++ e) }

/-- Two concurrent `handleOrderSubmit` invocations on the same selected
plot, under the app's single-threaded cooperative scheduling: call 1
runs synchronously to its `await` and suspends; call 2 then runs to its
`await`; the two `createOrder` outcomes then resolve in order.  Returns
the final state and the number of network submissions issued. -/
def twoConcurrentReserves (st : UIState) (od1 od2 : OrderData)
    (healthy : Bool) (r1 r2 : Except String MOrder) : UIState × ℕ :=
  match st.selectedPlot with
  | none => (st, 0)
  | some sel =>
    let st1 := submitPhaseA st sel
    match st1.selectedPlot with
    | none => (st1, 0)
    | some sel2 =>
      let st2 := submitPhaseA st1 sel2
      let out1 := PlotService.createOrder od1 healthy r1
      let out2 := PlotService.createOrder od2 healthy r2
      let st3 := submitResume st.plots out1.1 st2
      let st4 := submitResume st1.plots out2.1 st3
      (st4, (if out1.2 then 1 else 0) + (if out2.2 then 1 else 0))

/-! ## Mock backend (`MockDataService.createOrder`) -/

/-- The mock backend's module state: `mockPlots`, `mockOrders`,
`orderIdCounter`. -/
structure MockState where
  plots : List Plot
  orders : List MOrder
  counter : ℕ
deriving DecidableEq, Repr

/-- In-place `plot.status = 'pending'` on the object returned by
`find`: only the first plot with the given id is updated. -/
def setPendingFirst (ps : List Plot) (pid : String) : List Plot :=
  match ps with
  | [] => []
  | p :: rest =>
    if p.id = pid then { p with status := .pending } :: rest
    else p :: setPendingFirst rest pid

/-- The `Order` object literal built by `MockDataService.createOrder`
(mockDataService.ts lines 170–183): id from the counter, applicant
fields copied, status `pending`. -/
def mkMockOrder (counter : ℕ) (plotId : String) (plot : Plot)
    (od : OrderData) : MOrder :=
  { id := "order-" ++ toString counter
    plot_id := plotId
    plot_code := plot.plot_code
    first_name := od.first_name
    last_name := od.last_name
    customer_phone := od.customer_phone
    customer_email := od.customer_email
    customer_id_number := od.customer_id_number
    intended_use := od.intended_use
    status := "pending" }

/-- Embeds `MockDataService.createOrder` (mockDataService.ts lines
158–193): a missing plot or a non-`available` plot throws before any
mutation; otherwise one `pending` order is appended, the counter is
bumped and the plot's status becomes `pending`. -/
def MockDataService.createOrder (s : MockState) (plotId : String)
    (od : OrderData) : Except String MOrder × MockState :=
  match s.plots.find? fun p => p.id = plotId with
  | none => (.error "Plot not found", s)
  | some plot =>
    if plot.status ≠ .available then
      (.error ("Plot is not available for ordering. Current status: " ++
               plot.status.toStr), s)
    else
      let order := mkMockOrder s.counter plotId plot od
      (.ok order,
       { plots := setPendingFirst s.plots plotId
         orders := s.orders ++ [order]
         counter := s.counter + 1 })

/-! ## Raw-record normalization

The per-feature transforms of `getAllPlots` (plotService.ts lines
182–221), `getPlotById` (lines 264–276) and `searchPlots` (lines
366–381) on the API path. -/

/-- A JS number as it can arrive from `parseFloat`: `NaN` or a finite
value. -/
inductive JsNum where
  | nan
  | val (q : ℚ)
deriving DecidableEq, Repr

/-- `parseFloat(x) || fallback`: `NaN` and `0` are falsy. -/
def jsOrNum (n : JsNum) (fallback : ℚ) : ℚ :=
  match n with
  | .nan => fallback
  | .val q => if q = 0 then fallback else q

/-- `s || 'Unknown'`-style defaulting: `undefined`/`null` (`none`) and
the empty string are falsy. -/
def jsOrStr (s : Option String) (fallback : String) : String :=
  match s with
  | none => fallback
  | some v => if v = "" then fallback else v

/-- JS truthiness of a possibly-absent string (`!props.id` etc.). -/
def truthyStr (s : Option String) : Bool :=
  match s with
  | none => false
  | some v => v ≠ ""

/-- The `feature.properties` fields read by the transforms.
`area_hectares` is carried as the result of `parseFloat` on the raw
value (`nan` when unparseable). -/
structure RawProps where
  id : Option String
  plot_code : Option String
  status : Option String
  area_parsed : JsNum
  district : Option String
  ward : Option String
  village : Option String
deriving DecidableEq, Repr

/-- A raw GeoJSON feature: possibly-absent `properties` and `geometry`. -/
structure RawFeature where
  props : Option RawProps
  geom : Option RawGeometry

/-- A `Plot` record as actually produced at runtime by the transforms
(the declared TS type promises more than `getPlotById`/`searchPlots`
deliver, so absent strings and `NaN` areas are representable). -/
structure PlotOut where
  id : Option String
  plot_code : Option String
  status : PlotStatus
  area_hectares : JsNum
  district : Option String
  ward : Option String
  village : Option String
deriving DecidableEq, Repr

/-- The geometry-coordinates drop test of `getAllPlots`:
`!feature.geometry.coordinates || feature.geometry.coordinates.length
=== 0` (falsy coordinates, or an empty array). -/
def coordsDropped : Option JVal → Bool
  | none => true
  | some .nan => true
  | some (.num q) => q = 0
  | some (.arr l) => l.isEmpty
  | some _ => false

/-- The per-feature mapping inside `getAllPlots` (plotService.ts lines
182–221): features missing properties/geometry, required identity
fields, or coordinates are dropped (`null`, filtered out); survivors get
normalized status, `Math.max(0, parseFloat(...) || 0)` area and
`'Unknown'`-defaulted location strings. -/
def plotFromFeature (f : RawFeature) : Option PlotOut :=
  match f.props, f.geom with
  | some props, some g =>
    if !truthyStr props.id ∨ !truthyStr props.plot_code then none
    else if coordsDropped g.coordinates then none
    else
      some
        { id := props.id
          plot_code := props.plot_code
          status := normalizeStatus props.status
          area_hectares := .val (max 0 (jsOrNum props.area_parsed 0))
          district := some (jsOrStr props.district "Unknown")
          ward := some (jsOrStr props.ward "Unknown")
          village := some (jsOrStr props.village "Unknown") }
  | _, _ => none

/-- The feature-list transform of `getAllPlots`: map then
`.filter(Boolean)`. -/
def getAllPlots (features : List RawFeature) : List PlotOut :=
  features.filterMap plotFromFeature

/-- The transform of `getPlotById` (plotService.ts lines 264–276):
features without properties or geometry yield `null`; otherwise the raw
fields pass through with only `normalizeStatus` applied — `parseFloat`
is not clamped or defaulted and the location strings are not
defaulted. -/
def getPlotById (f : RawFeature) : Option PlotOut :=
  match f.props, f.geom with
  | some props, some _ =>
    some
      { id := props.id
        plot_code := props.plot_code
        status := normalizeStatus props.status
        area_hectares := props.area_parsed
        district := props.district
        ward := props.ward
        village := props.village }
  | _, _ => none

/-- The per-feature mapping of `searchPlots` (plotService.ts lines
366–381): identical raw pass-through (no property/geometry guard is
even attempted; a feature without properties would throw, modelled as
`none` for the whole batch via `mapM`). -/
def searchPlotFromFeature (f : RawFeature) : Option PlotOut :=
  match f.props with
  | some props =>
    some
      { id := props.id
        plot_code := props.plot_code
        status := normalizeStatus props.status
        area_hectares := props.area_parsed
        district := props.district
        ward := props.ward
        village := props.village }
  | none => none

/-- The feature-list transform of `searchPlots`. -/
def searchPlots (features : List RawFeature) : Option (List PlotOut) :=
  features.mapM searchPlotFromFeature

/-! ## Concrete fixtures (from the mock data set and the spec scenarios) -/

/-- Mock plot `plot-001` (mockDataService.ts lines 5–30), available. -/
def plot001 : Plot :=
  { id := "plot-001"
    plot_code := "DSM/KINONDONI/001"
    status := .available
    area_hectares := 2.5
    district := "Kinondoni"
    ward := "Msasani"
    village := "Msasani Bonde la Mpunga" }

/-- Mock plot `plot-002` (mockDataService.ts lines 31–56), taken. -/
def plot002 : Plot :=
  { id := "plot-002"
    plot_code := "DSM/KINONDONI/002"
    status := .taken
    area_hectares := 1.8
    district := "Kinondoni"
    ward := "Msasani"
    village := "Msasani Bonde la Mpunga" }

/-- The outer ring of mock plot `plot-001` (a closed axis-aligned
square, traversed clockwise). -/
def ring001 : List (ℚ × ℚ) :=
  [(39.2083, -6.7833), (39.2093, -6.7833), (39.2093, -6.7843),
   (39.2083, -6.7843), (39.2083, -6.7833)]

/-- A MapView state with `plot-001` selected for ordering. -/
def uiEx : UIState :=
  { plots := [plot001, plot002]
    rendered := [plot001, plot002]
    selectedPlot := some plot001
    isModalOpen := true
    orderError := none }

/-- A valid applicant. -/
def odValid : OrderData :=
  { first_name := "Asha"
    last_name := "Mrema"
    customer_phone := "+255700000001"
    customer_email := "asha.mrema@example.com"
    customer_id_number := "ID-0001"
    intended_use := "residential" }

/-- The same applicant with an email that fails the address pattern. -/
def odBadEmail : OrderData :=
  { odValid with customer_email := "not-an-email" }

/-- A remote order payload for successful submissions. -/
def morderEx : MOrder :=
  { id := "order-1"
    plot_id := "plot-001"
    plot_code := "DSM/KINONDONI/001"
    first_name := "Asha"
    last_name := "Mrema"
    customer_phone := "+255700000001"
    customer_email := "asha.mrema@example.com"
    customer_id_number := "ID-0001"
    intended_use := "residential"
    status := "pending" }

/-- The mock backend's initial state restricted to two plots. -/
def mockEx : MockState :=
  { plots := [plot001, plot002], orders := [], counter := 1 }

/-- The spec scenario's 3-point unclosed ring
`[[39.20,-6.78],[39.21,-6.78],[39.21,-6.79]]` wrapped as a Polygon. -/
def threePointRingGeom : RawGeometry :=
  { gtype := some "Polygon"
    coordinates := some (.arr [.arr
      [.arr [.num 39.20, .num (-6.78)],
       .arr [.num 39.21, .num (-6.78)],
       .arr [.num 39.21, .num (-6.79)]]]) }

/-- A raw feature whose properties carry a negative parsed area and no
location strings (exercises the `getPlotById`/`searchPlots`
pass-through). -/
def rawNegFeature : RawFeature :=
  { props := some
      { id := some "plot-x"
        plot_code := some "PC-X"
        status := some "archived"
        area_parsed := .val (-5)
        district := none
        ward := none
        village := none }
    geom := some { gtype := some "Polygon", coordinates := some (.arr [.arr []]) } }

/-! ## Helper lemmas for the centroid containment proof -/

theorem sum_map_add (l : List α) (f g : α → ℚ) :
    (l.map fun x => f x + g x).sum = (l.map f).sum + (l.map g).sum := by
  induction l with
  | nil => simp
  | cons a t ih => simp only [List.map_cons, List.sum_cons, ih]; ring

theorem sum_map_neg (l : List α) (f : α → ℚ) :
    (l.map fun x => -f x).sum = -(l.map f).sum := by
  induction l with
  | nil => simp
  | cons a t ih => simp only [List.map_cons, List.sum_cons, ih]; ring

theorem ringPairs_cons (a b : ℚ × ℚ) (t : List (ℚ × ℚ)) :
    ringPairs (a :: b :: t) = (a, b) :: ringPairs (b :: t) := rfl

/-- Telescoping: over the consecutive pairs of a list, `f p - f q` sums
to `f first - f last`. -/
theorem pairs_sub_telescope (f : ℚ × ℚ → ℚ) :
    ∀ (a : ℚ × ℚ) (t : List (ℚ × ℚ)),
      ((ringPairs (a :: t)).map fun pq => f pq.1 - f pq.2).sum
        = f a - f ((a :: t).getLast (List.cons_ne_nil a t))
  | a, [] => by simp [ringPairs]
  | a, b :: t => by
    rw [ringPairs_cons]
    simp only [List.map_cons, List.sum_cons]
    rw [pairs_sub_telescope f b t, List.getLast_cons (List.cons_ne_nil b t)]
    ring

/-- On a closed ring (`head = last`), telescoping sums vanish. -/
theorem pairs_sub_closed (f : ℚ × ℚ → ℚ) (o : ℚ × ℚ) (ring : List (ℚ × ℚ))
    (h1 : ring.head? = some o) (h2 : ring.getLast? = some o) :
    ((ringPairs ring).map fun pq => f pq.1 - f pq.2).sum = 0 := by
  cases ring with
  | nil => simp at h1
  | cons a t =>
    have ha : a = o := by simpa using h1
    subst ha
    have hl : (a :: t).getLast (List.cons_ne_nil a t) = a := by
      have h3 := List.getLast?_eq_getLast (a :: t) (List.cons_ne_nil a t)
      rw [h3] at h2
      exact Option.some.inj h2
    rw [pairs_sub_telescope f a t, hl, sub_self]

/-- On a closed ring the fan-triangle areas from the first vertex sum to
the shoelace sum computed about the origin. -/
theorem fan_shoelace (o : ℚ × ℚ) (ring : List (ℚ × ℚ))
    (h1 : ring.head? = some o) (h2 : ring.getLast? = some o) :
    ((ringPairs ring).map fun pq => fanTerm o pq.1 pq.2).sum = shoelaceSum ring := by
  have hsplit :
      ((ringPairs ring).map fun pq => fanTerm o pq.1 pq.2).sum
        = ((ringPairs ring).map fun pq => crossT pq.1 pq.2).sum
          + ((ringPairs ring).map fun pq => crossT o pq.1 - crossT o pq.2).sum := by
    induction ringPairs ring with
    | nil => simp
    | cons a t ih =>
      simp only [List.map_cons, List.sum_cons]
      rw [ih]
      simp only [fanTerm, crossT]
      ring
  have htel :
      ((ringPairs ring).map fun pq => crossT o pq.1 - crossT o pq.2).sum = 0 :=
    pairs_sub_closed (fun p => crossT o p) o ring h1 h2
  rw [hsplit, htel, add_zero]
  rfl

/-- On a closed ring the code's `x` accumulator equals the fan
decomposition `Σ (o.1 + p.1 + q.1) * fanTerm o p q`. -/
theorem fan_centXSum (o : ℚ × ℚ) (ring : List (ℚ × ℚ))
    (h1 : ring.head? = some o) (h2 : ring.getLast? = some o) :
    ((ringPairs ring).map fun pq => (o.1 + pq.1.1 + pq.2.1) * fanTerm o pq.1 pq.2).sum
      = centXSum ring := by
  have hsplit :
      ((ringPairs ring).map fun pq => (o.1 + pq.1.1 + pq.2.1) * fanTerm o pq.1 pq.2).sum
        = ((ringPairs ring).map fun pq => (pq.1.1 + pq.2.1) * crossT pq.1 pq.2).sum
          + ((ringPairs ring).map fun pq =>
              (o.1 + pq.1.1) * crossT o pq.1 - (o.1 + pq.2.1) * crossT o pq.2).sum := by
    induction ringPairs ring with
    | nil => simp
    | cons a t ih =>
      simp only [List.map_cons, List.sum_cons]
      rw [ih]
      simp only [fanTerm, crossT]
      ring
  have htel :
      ((ringPairs ring).map fun pq =>
          (o.1 + pq.1.1) * crossT o pq.1 - (o.1 + pq.2.1) * crossT o pq.2).sum = 0 :=
    pairs_sub_closed (fun p => (o.1 + p.1) * crossT o p) o ring h1 h2
  rw [hsplit, htel, add_zero]
  rfl

/-- On a closed ring the code's `y` accumulator equals the fan
decomposition `Σ (o.2 + p.2 + q.2) * fanTerm o p q`. -/
theorem fan_centYSum (o : ℚ × ℚ) (ring : List (ℚ × ℚ))
    (h1 : ring.head? = some o) (h2 : ring.getLast? = some o) :
    ((ringPairs ring).map fun pq => (o.2 + pq.1.2 + pq.2.2) * fanTerm o pq.1 pq.2).sum
      = centYSum ring := by
  have hsplit :
      ((ringPairs ring).map fun pq => (o.2 + pq.1.2 + pq.2.2) * fanTerm o pq.1 pq.2).sum
        = ((ringPairs ring).map fun pq => (pq.1.2 + pq.2.2) * crossT pq.1 pq.2).sum
          + ((ringPairs ring).map fun pq =>
              (o.2 + pq.1.2) * crossT o pq.1 - (o.2 + pq.2.2) * crossT o pq.2).sum := by
    induction ringPairs ring with
    | nil => simp
    | cons a t ih =>
      simp only [List.map_cons, List.sum_cons]
      rw [ih]
      simp only [fanTerm, crossT]
      ring
  have htel :
      ((ringPairs ring).map fun pq =>
          (o.2 + pq.1.2) * crossT o pq.1 - (o.2 + pq.2.2) * crossT o pq.2).sum = 0 :=
    pairs_sub_closed (fun p => (o.2 + p.2) * crossT o p) o ring h1 h2
  rw [hsplit, htel, add_zero]
  rfl

/-- Upper bound on a nonnegatively-weighted sum with bounded
coefficients. -/
theorem sum_weighted_le (l : List α) (w f : α → ℚ) (c : ℚ)
    (hw : ∀ x ∈ l, 0 ≤ w x) (hf : ∀ x ∈ l, f x ≤ c) :
    (l.map fun x => f x * w x).sum ≤ c * (l.map w).sum := by
  induction l with
  | nil => simp
  | cons a t ih =>
    simp only [List.map_cons, List.sum_cons, mul_add]
    have h1 : f a * w a ≤ c * w a :=
      mul_le_mul_of_nonneg_right (hf a (List.mem_cons_self a t))
        (hw a (List.mem_cons_self a t))
    have h2 := ih (fun x hx => hw x (List.mem_cons_of_mem a hx))
        (fun x hx => hf x (List.mem_cons_of_mem a hx))
    linarith

/-- Lower bound on a nonnegatively-weighted sum with bounded
coefficients. -/
theorem sum_weighted_ge (l : List α) (w f : α → ℚ) (c : ℚ)
    (hw : ∀ x ∈ l, 0 ≤ w x) (hf : ∀ x ∈ l, c ≤ f x) :
    c * (l.map w).sum ≤ (l.map fun x => f x * w x).sum := by
  induction l with
  | nil => simp
  | cons a t ih =>
    simp only [List.map_cons, List.sum_cons, mul_add]
    have h1 : c * w a ≤ f a * w a :=
      mul_le_mul_of_nonneg_right (hf a (List.mem_cons_self a t))
        (hw a (List.mem_cons_self a t))
    have h2 := ih (fun x hx => hw x (List.mem_cons_of_mem a hx))
        (fun x hx => hf x (List.mem_cons_of_mem a hx))
    linarith

/-- Both members of a consecutive pair of a list are members of the
list. -/
theorem mem_of_mem_ringPairs {ring : List (ℚ × ℚ)}
    {pq : (ℚ × ℚ) × (ℚ × ℚ)} (h : pq ∈ ringPairs ring) :
    pq.1 ∈ ring ∧ pq.2 ∈ ring := by
  obtain ⟨a, b⟩ := pq
  have h2 : (a, b) ∈ ring.zip ring.tail := h
  have h3 := List.of_mem_zip h2
  exact ⟨h3.1, ring.tail_subset h3.2⟩

theorem sum_nonpos_list {l : List ℚ} (h : ∀ x ∈ l, x ≤ 0) : l.sum ≤ 0 := by
  induction l with
  | nil => simp
  | cons a t ih =>
    simp only [List.sum_cons]
    have h1 := h a (List.mem_cons_self a t)
    have h2 := ih fun x hx => h x (List.mem_cons_of_mem a hx)
    linarith

/-- The arithmetic mean of a non-empty list of values inside `[c₁, c₂]`
stays inside `[c₁, c₂]`. -/
theorem mean_bound (l : List ℚ) (c1 c2 : ℚ) (hne : l ≠ [])
    (hb : ∀ x ∈ l, c1 ≤ x ∧ x ≤ c2) :
    c1 ≤ l.sum / (l.length : ℚ) ∧ l.sum / (l.length : ℚ) ≤ c2 := by
  have hlen : 0 < (l.length : ℚ) := by
    have : 0 < l.length := List.length_pos.mpr hne
    exact_mod_cast this
  have hup : l.sum ≤ (l.length : ℚ) * c2 := by
    have := List.sum_le_card_nsmul l c2 fun x hx => (hb x hx).2
    simpa [nsmul_eq_mul] using this
  have hlo : (l.length : ℚ) * c1 ≤ l.sum := by
    have := List.card_nsmul_le_sum l c1 fun x hx => (hb x hx).1
    simpa [nsmul_eq_mul] using this
  constructor
  · rw [le_div_iff₀ hlen]
    linarith
  · rw [div_le_iff₀ hlen]
    linarith

/-- Core containment bound for one coordinate of the weighted centroid:
for a closed fan-signed ring of nonzero shoelace sum, the ratio
`S / (3 * area)` of the fan-decomposed accumulator stays inside any
interval containing the ring's projections. -/
theorem fan_ratio_bound (o : ℚ × ℚ) (ring : List (ℚ × ℚ))
    (proj : ℚ × ℚ → ℚ) (S c1 c2 : ℚ)
    (h1 : ring.head? = some o) (h2 : ring.getLast? = some o)
    (hfan : FanSigned o ring)
    (harea : shoelaceSum ring ≠ 0)
    (hb : ∀ p ∈ ring, c1 ≤ proj p ∧ proj p ≤ c2)
    (hid : ((ringPairs ring).map fun pq =>
        (proj o + proj pq.1 + proj pq.2) * fanTerm o pq.1 pq.2).sum = S) :
    c1 ≤ S / (3 * shoelaceSum ring) ∧ S / (3 * shoelaceSum ring) ≤ c2 := by
  have hAsum : ((ringPairs ring).map fun pq => fanTerm o pq.1 pq.2).sum
      = shoelaceSum ring := fan_shoelace o ring h1 h2
  have ho : o ∈ ring := by
    cases ring with
    | nil => simp at h1
    | cons a t =>
      have ha : a = o := by simpa using h1
      subst ha
      exact List.mem_cons_self a t
  have hcoefLo : ∀ pq ∈ ringPairs ring,
      3 * c1 ≤ proj o + proj pq.1 + proj pq.2 := by
    intro pq hpq
    obtain ⟨hp, hq⟩ := mem_of_mem_ringPairs hpq
    have b0 := hb o ho
    have b1 := hb pq.1 hp
    have b2 := hb pq.2 hq
    linarith [b0.1, b1.1, b2.1]
  have hcoefHi : ∀ pq ∈ ringPairs ring,
      proj o + proj pq.1 + proj pq.2 ≤ 3 * c2 := by
    intro pq hpq
    obtain ⟨hp, hq⟩ := mem_of_mem_ringPairs hpq
    have b0 := hb o ho
    have b1 := hb pq.1 hp
    have b2 := hb pq.2 hq
    linarith [b0.2, b1.2, b2.2]
  rcases hfan with hpos | hneg
  · have hApos : 0 < shoelaceSum ring := by
      have hnn : 0 ≤ shoelaceSum ring := by
        rw [← hAsum]
        refine List.sum_nonneg ?_
        intro x hx
        rw [List.mem_map] at hx
        obtain ⟨pq, hpq, rfl⟩ := hx
        exact hpos pq hpq
      exact lt_of_le_of_ne hnn (Ne.symm harea)
    have hup : S ≤ 3 * c2 * shoelaceSum ring := by
      have := sum_weighted_le (ringPairs ring)
          (fun pq => fanTerm o pq.1 pq.2)
          (fun pq => proj o + proj pq.1 + proj pq.2) (3 * c2) hpos hcoefHi
      rw [hid, hAsum] at this
      linarith
    have hlo : 3 * c1 * shoelaceSum ring ≤ S := by
      have := sum_weighted_ge (ringPairs ring)
          (fun pq => fanTerm o pq.1 pq.2)
          (fun pq => proj o + proj pq.1 + proj pq.2) (3 * c1) hpos hcoefLo
      rw [hid, hAsum] at this
      linarith
    have h3A : 0 < 3 * shoelaceSum ring := by linarith
    constructor
    · rw [le_div_iff₀ h3A]
      linarith
    · rw [div_le_iff₀ h3A]
      linarith
  · have hAneg : shoelaceSum ring < 0 := by
      have hnp : shoelaceSum ring ≤ 0 := by
        rw [← hAsum]
        refine sum_nonpos_list ?_
        intro x hx
        rw [List.mem_map] at hx
        obtain ⟨pq, hpq, rfl⟩ := hx
        exact hneg pq hpq
      exact lt_of_le_of_ne hnp harea
    have hnegid : ((ringPairs ring).map fun pq =>
        (proj o + proj pq.1 + proj pq.2) * -fanTerm o pq.1 pq.2).sum = -S := by
      have hfn : (fun pq : (ℚ × ℚ) × (ℚ × ℚ) =>
            (proj o + proj pq.1 + proj pq.2) * -fanTerm o pq.1 pq.2)
          = fun pq => -((proj o + proj pq.1 + proj pq.2) * fanTerm o pq.1 pq.2) := by
        funext pq
        ring
      rw [hfn, sum_map_neg, hid]
    have hnegA : ((ringPairs ring).map fun pq => -fanTerm o pq.1 pq.2).sum
        = -shoelaceSum ring := by
      rw [sum_map_neg, hAsum]
    have hw : ∀ pq ∈ ringPairs ring, 0 ≤ -fanTerm o pq.1 pq.2 := by
      intro pq hpq
      have := hneg pq hpq
      linarith
    have hup : 3 * c2 * shoelaceSum ring ≤ S := by
      have := sum_weighted_le (ringPairs ring)
          (fun pq => -fanTerm o pq.1 pq.2)
          (fun pq => proj o + proj pq.1 + proj pq.2) (3 * c2) hw hcoefHi
      rw [hnegid, hnegA] at this
      linarith
    have hlo : S ≤ 3 * c1 * shoelaceSum ring := by
      have := sum_weighted_ge (ringPairs ring)
          (fun pq => -fanTerm o pq.1 pq.2)
          (fun pq => proj o + proj pq.1 + proj pq.2) (3 * c1) hw hcoefLo
      rw [hnegid, hnegA] at this
      linarith
    have h3A : 3 * shoelaceSum ring < 0 := by linarith
    constructor
    · rw [le_div_iff_of_neg h3A]
      linarith
    · rw [div_le_iff_of_neg h3A]
      linarith

/-- Reduction of `getPolygonCentroid` once the first ring is known. -/
theorem getPolygonCentroid_head (coords : List (List (ℚ × ℚ)))
    (ring : List (ℚ × ℚ)) (h : coords.head? = some ring) :
    getPolygonCentroid coords =
      if ring.length < 4 then (0, 0)
      else if |shoelaceSum ring| < 1 / 10 ^ 10 then
        ((ring.map Prod.fst).sum / (ring.length : ℚ),
         (ring.map Prod.snd).sum / (ring.length : ℚ))
      else
        (centXSum ring / (6 * (shoelaceSum ring * (1 / 2))),
         centYSum ring / (6 * (shoelaceSum ring * (1 / 2)))) := by
  unfold getPolygonCentroid
  rw [h]

/-- C7: for every valid convex polygon ring (closed, ≥ 4 points, fan
triangles from the first vertex uniformly signed — a property of every
convex ring in a consistent orientation), the centroid returned by
`getPolygonCentroid` lies inside the ring's bounding box (part 1 states
it for every enclosing interval, hence for the tightest one); a
degenerate ring with `|area| < 1e-10` yields the unweighted arithmetic
mean of the ring's entries (part 2); a missing first ring or a ring
with fewer than 4 points yields the sentinel `(0, 0)` (parts 3 and 4),
and the embedded function is total, so no exception is raised. -/
theorem getPolygonCentroid_spec :
    (∀ (coords : List (List (ℚ × ℚ))) (ring : List (ℚ × ℚ)) (o : ℚ × ℚ)
        (c1 c2 d1 d2 : ℚ),
      coords.head? = some ring →
      ring.head? = some o → ring.getLast? = some o →
      4 ≤ ring.length →
      FanSigned o ring →
      (∀ p ∈ ring, c1 ≤ p.1 ∧ p.1 ≤ c2) →
      (∀ p ∈ ring, d1 ≤ p.2 ∧ p.2 ≤ d2) →
      c1 ≤ (getPolygonCentroid coords).1 ∧ (getPolygonCentroid coords).1 ≤ c2 ∧
      d1 ≤ (getPolygonCentroid coords).2 ∧ (getPolygonCentroid coords).2 ≤ d2) ∧
    (∀ (coords : List (List (ℚ × ℚ))) (ring : List (ℚ × ℚ)),
      coords.head? = some ring → 4 ≤ ring.length →
      |shoelaceSum ring| < 1 / 10 ^ 10 →
      getPolygonCentroid coords =
        ((ring.map Prod.fst).sum / (ring.length : ℚ),
         (ring.map Prod.snd).sum / (ring.length : ℚ))) ∧
    (∀ coords : List (List (ℚ × ℚ)),
      coords.head? = none → getPolygonCentroid coords = (0, 0)) ∧
    (∀ (coords : List (List (ℚ × ℚ))) (ring : List (ℚ × ℚ)),
      coords.head? = some ring → ring.length < 4 →
      getPolygonCentroid coords = (0, 0)) := by
  refine ⟨?_, ?_, ?_, ?_⟩
  · intro coords ring o c1 c2 d1 d2 hhead ho hlast hlen hfan hx hy
    rw [getPolygonCentroid_head coords ring hhead,
        if_neg (by omega : ¬ ring.length < 4)]
    by_cases hdeg : |shoelaceSum ring| < 1 / 10 ^ 10
    · rw [if_pos hdeg]
      have hne : ring ≠ [] := by
        intro hnil
        rw [hnil] at hlen
        simp at hlen
      have hmx := mean_bound (ring.map Prod.fst) c1 c2
          (by simpa using hne)
          (by
            intro x hx2
            rw [List.mem_map] at hx2
            obtain ⟨p, hp, rfl⟩ := hx2
            exact hx p hp)
      have hmy := mean_bound (ring.map Prod.snd) d1 d2
          (by simpa using hne)
          (by
            intro x hy2
            rw [List.mem_map] at hy2
            obtain ⟨p, hp, rfl⟩ := hy2
            exact hy p hp)
      rw [List.length_map] at hmx hmy
      exact ⟨hmx.1, hmx.2, hmy.1, hmy.2⟩
    · rw [if_neg hdeg]
      have harea : shoelaceSum ring ≠ 0 := by
        intro h0
        rw [h0] at hdeg
        norm_num at hdeg
      have h6 : centXSum ring / (6 * (shoelaceSum ring * (1 / 2)))
            = centXSum ring / (3 * shoelaceSum ring) := by
        norm_num
        ring_nf
      have h7 : centYSum ring / (6 * (shoelaceSum ring * (1 / 2)))
            = centYSum ring / (3 * shoelaceSum ring) := by
        norm_num
        ring_nf
      have hbx := fan_ratio_bound o ring Prod.fst (centXSum ring) c1 c2
          ho hlast hfan harea hx (fan_centXSum o ring ho hlast)
      have hby := fan_ratio_bound o ring Prod.snd (centYSum ring) d1 d2
          ho hlast hfan harea hy (fan_centYSum o ring ho hlast)
      simp only [h6, h7]
      exact ⟨hbx.1, hbx.2, hby.1, hby.2⟩
  · intro coords ring hhead hlen hdeg
    rw [getPolygonCentroid_head coords ring hhead,
        if_neg (by omega : ¬ ring.length < 4), if_pos hdeg]
  · intro coords hhead
    unfold getPolygonCentroid
    rw [hhead]
  · intro coords ring hhead hlen
    rw [getPolygonCentroid_head coords ring hhead, if_pos hlen]

/-! ## Claim theorems -/

/-- C6: every raw status outside {available, taken, pending} — including
an absent one and the "archived" scenario — normalizes to `pending`, and
a plot whose status is not `available` is not orderable: the popup
offers no order action, the click handler does not open the order modal,
and the mock backend rejects a reservation against it. -/
theorem normalizeStatus_fail_closed :
    (∀ s : Option String,
      s ≠ some "available" → s ≠ some "taken" → s ≠ some "pending" →
      normalizeStatus s = .pending) ∧
    normalizeStatus (some "archived") = .pending ∧
    normalizeStatus none = .pending ∧
    (∀ st : PlotStatus, st ≠ .available →
      popupOrderAction st = none ∧ handlePlotClickOpensModal st = false) ∧
    popupOrderAction (normalizeStatus (some "archived")) = none ∧
    (∀ (s : MockState) (pid : String) (od : OrderData) (p : Plot),
      (s.plots.find? fun q => q.id = pid) = some p → p.status ≠ .available →
      (MockDataService.createOrder s pid od).1 =
        .error ("Plot is not available for ordering. Current status: " ++
          p.status.toStr)) := by
  refine ⟨?_, rfl, rfl, ?_, rfl, ?_⟩
  · intro s h1 h2 h3
    unfold normalizeStatus
    split
    · exact absurd rfl h1
    · exact absurd rfl h2
    · exact absurd rfl h3
    · rfl
  · intro st hst
    cases st with
    | available => exact absurd rfl hst
    | taken => exact ⟨rfl, rfl⟩
    | pending => exact ⟨rfl, rfl⟩
  · intro s pid od p hfind hp
    unfold MockDataService.createOrder
    rw [hfind]
    simp [hp]

/-- Witness for C6: the "archived" status normalizes to `pending`, and
the mock backend rejects a reservation against the taken `plot-002`. -/
theorem normalizeStatus_fail_closed_witness :
    normalizeStatus (some "archived") = .pending ∧
    popupOrderAction PlotStatus.taken = none ∧
    (MockDataService.createOrder mockEx "plot-002" odValid).1 =
      .error "Plot is not available for ordering. Current status: taken" := by
  refine ⟨normalizeStatus_fail_closed.2.1, ?_, ?_⟩
  · exact (normalizeStatus_fail_closed.2.2.2.1 PlotStatus.taken (by decide)).1
  · exact normalizeStatus_fail_closed.2.2.2.2.2 mockEx "plot-002" odValid
      plot002 (by rfl) (by decide)

/-- C9 counterexample: for a selected available plot, the produced style
keeps the status-derived fill color `#10B981` unchanged — the
status-derived color is NOT overridden by the highlight `#3B82F6` (only
the stroke color, which is the status-independent white, is). -/
theorem selection_keeps_status_fill :
    (selectedPlotStyle "available").fillColor = "#10B981" ∧
    (selectedPlotStyle "available").fillColor
      = (getPlotStyle "available" false).fillColor ∧
    (selectedPlotStyle "available").fillColor ≠ "#3B82F6" ∧
    (getPlotStyle "available" false).color = "#ffffff" := by
  exact ⟨rfl, rfl, by decide, rfl⟩

/-- C9 (amended): for every selected plot the render instruction
overrides the stroke color (the status-independent white) with the
distinguished highlight `#3B82F6` and raises the stroke weight to 4,
regardless of status; the status-derived fill color and dash pattern
are preserved. -/
theorem selectedPlotStyle_highlights_stroke (status : String) :
    (selectedPlotStyle status).color = "#3B82F6" ∧
    (selectedPlotStyle status).weight = 4 ∧
    (selectedPlotStyle status).fillColor = (getPlotStyle status false).fillColor ∧
    (selectedPlotStyle status).dashArray = (getPlotStyle status false).dashArray ∧
    (selectedPlotStyle status).fillOpacity
      = (getPlotStyle status false).fillOpacity :=
  ⟨rfl, rfl, rfl, rfl, rfl⟩

/-- Witness for C9 (amended) at a concrete unknown status. -/
theorem selectedPlotStyle_highlights_stroke_witness :
    (selectedPlotStyle "archived").color = "#3B82F6" ∧
    (selectedPlotStyle "archived").weight = 4 :=
  ⟨(selectedPlotStyle_highlights_stroke "archived").1,
   (selectedPlotStyle_highlights_stroke "archived").2.1⟩

/-- C4 counterexample: the health cache is not negatively cached.  At
t = 30000 ms a probe fails and marks the cache unhealthy; a fetch gated
5 seconds later (within the 30 s TTL) issues a NEW probe (third
component `true`) instead of answering from the cache. -/
theorem checkApiHealth_reprobes_within_ttl :
    checkApiHealth ⟨0, true⟩ 30000 false = (false, ⟨30000, false⟩, true) ∧
    (checkApiHealth ⟨30000, false⟩ 35000 false).2.2 = true ∧
    35000 - 30000 < 30000 := by
  exact ⟨by decide, by decide, by decide⟩

/-- C4 (amended): the 30-second TTL suppresses probing only while the
cached state is healthy: a healthy cache within TTL answers `true`
without a probe; an unhealthy cache triggers a fresh probe on every
call regardless of elapsed time, the gate returning that probe's
result; and once the TTL has elapsed a probe is always issued. -/
theorem checkApiHealth_policy :
    (∀ (st : HealthState) (now : ℕ) (probeOk : Bool),
      st.isHealthy = true → now - st.lastHealthCheck < 30000 →
      checkApiHealth st now probeOk = (true, st, false)) ∧
    (∀ (st : HealthState) (now : ℕ) (probeOk : Bool),
      st.isHealthy = false →
      checkApiHealth st now probeOk = (probeOk, ⟨now, probeOk⟩, true)) ∧
    (∀ (st : HealthState) (now : ℕ) (probeOk : Bool),
      30000 ≤ now - st.lastHealthCheck →
      checkApiHealth st now probeOk = (probeOk, ⟨now, probeOk⟩, true)) := by
  refine ⟨?_, ?_, ?_⟩
  · intro st now probeOk hh ht
    unfold checkApiHealth
    rw [if_pos ⟨ht, hh⟩, hh]
  · intro st now probeOk hh
    unfold checkApiHealth
    rw [if_neg]
    intro hcontra
    rw [hh] at hcontra
    exact Bool.false_ne_true hcontra.2
  · intro st now probeOk ht
    unfold checkApiHealth
    rw [if_neg]
    intro hcontra
    omega

/-- Witness for C4 (amended): concrete instances of all three policy
branches. -/
theorem checkApiHealth_policy_witness :
    checkApiHealth ⟨1000, true⟩ 2000 false = (true, ⟨1000, true⟩, false) ∧
    checkApiHealth ⟨1000, false⟩ 2000 true = (true, ⟨2000, true⟩, true) ∧
    checkApiHealth ⟨0, true⟩ 31000 true = (true, ⟨31000, true⟩, true) :=
  ⟨checkApiHealth_policy.1 ⟨1000, true⟩ 2000 false rfl (by decide),
   checkApiHealth_policy.2.1 ⟨1000, false⟩ 2000 true rfl,
   checkApiHealth_policy.2.2 ⟨0, true⟩ 31000 true (by decide)⟩

/-- C1: when the remote submission of a reservation fails (valid
applicant, healthy API, remote error `e`), the Plot set after the call
equals the set before it — every plot's status, in particular the
target's, is restored — the reverted set is re-rendered
(reconciliation re-triggered), and the failure is surfaced through the
order-error banner with the original error message preserved; the
fourth conjunct records that a remote submission was indeed made. -/
theorem reserve_rollback (st : UIState) (sel : Plot) (od : OrderData)
    (e : String)
    (hsel : st.selectedPlot = some sel)
    (hvalid : validateOrderData od = none) :
    (handleOrderSubmit st od true (.error e)).final.plots = st.plots ∧
    (handleOrderSubmit st od true (.error e)).final.rendered = st.plots ∧
    (∀ pid, statusOf (handleOrderSubmit st od true (.error e)).final.plots pid
      = statusOf st.plots pid) ∧
    (handleOrderSubmit st od true (.error e)).network = true ∧
    (handleOrderSubmit st od true (.error e)).final.orderError
      = some ("Failed to submit order: " ++ e) := by
  unfold handleOrderSubmit PlotService.createOrder
  rw [hsel, hvalid]
  exact ⟨rfl, rfl, fun pid => rfl, rfl, rfl⟩

/-- Witness for C1: a failing submission against the selected
`plot-001` leaves the plot list exactly as before the call. -/
theorem reserve_rollback_witness :
    uiEx.selectedPlot = some plot001 ∧
    validateOrderData odValid = none ∧
    (handleOrderSubmit uiEx odValid true
        (.error "Internal server error. Please try again later.")).final.plots
      = uiEx.plots :=
  ⟨rfl, by decide,
   (reserve_rollback uiEx plot001 odValid _ rfl (by decide)).1⟩

/-- C2 counterexample: two concurrent reserve calls on the same
selected plot, both with valid applicant data against a healthy API,
issue TWO remote submissions, and the second call also issues its
network request (it is not rejected before any network call) — the
code has no single-flight guard. -/
theorem reserve_double_submission :
    (twoConcurrentReserves uiEx odValid odValid true (.ok morderEx)
      (.error "Plot is not available for ordering. Current status: pending")).2
      = 2 ∧
    (PlotService.createOrder odValid true
      (.error "Plot is not available for ordering. Current status: pending")).2
      = true := by
  exact ⟨by decide, by decide⟩

/-- C2 (amended): the coordinator performs no single-flight gating: any
two concurrent reserve calls on the same selected plot with valid
applicant data and a healthy API each issue their own remote
submission (two network calls in total); the duplicate is rejected
only by the backend's availability check (cf. the mock backend theorem
for C10), never before the network call. -/
theorem reserve_no_single_flight (st : UIState) (sel : Plot)
    (od1 od2 : OrderData) (r1 r2 : Except String MOrder)
    (hsel : st.selectedPlot = some sel)
    (h1 : validateOrderData od1 = none) (h2 : validateOrderData od2 = none) :
    (twoConcurrentReserves st od1 od2 true r1 r2).2 = 2 := by
  unfold twoConcurrentReserves
  rw [hsel]
  dsimp only [submitPhaseA]
  rw [hsel]
  unfold PlotService.createOrder
  rw [h1, h2]
  rfl

/-- Witness for C2 (amended): the concrete double submission. -/
theorem reserve_no_single_flight_witness :
    uiEx.selectedPlot = some plot001 ∧
    (twoConcurrentReserves uiEx odValid odValid true (.ok morderEx)
      (.ok morderEx)).2 = 2 :=
  ⟨rfl, reserve_no_single_flight uiEx plot001 odValid odValid _ _ rfl
    (by decide) (by decide)⟩

/-- C3 counterexample: a reserve call with an invalid applicant email
makes no network request, yet the Plot set DOES change transiently:
right after the optimistic update the selected plot (available
beforehand) is marked `pending`, before the rollback restores the
original list. -/
theorem reserve_validation_transient :
    (handleOrderSubmit uiEx odBadEmail true (.ok morderEx)).network = false ∧
    statusOf uiEx.plots "plot-001" = some .available ∧
    ((handleOrderSubmit uiEx odBadEmail true (.ok morderEx)).mid.map
      fun s => statusOf s.plots "plot-001") = some (some .pending) ∧
    (handleOrderSubmit uiEx odBadEmail true (.ok morderEx)).final.plots
      = uiEx.plots := by
  exact ⟨by decide, by decide, by decide, by rfl⟩

/-- C3 (amended): invalid applicant data fails before any remote call
(no network request is issued) and the final Plot set equals the
pre-call set, with the validation error surfaced; but the optimistic
`pending` mutation IS applied first and then reverted — the Plot set
changes transiently between the optimistic write and the rollback. -/
theorem reserve_validation_failfast (st : UIState) (sel : Plot)
    (od : OrderData) (e : String) (healthy : Bool)
    (remote : Except String MOrder)
    (hsel : st.selectedPlot = some sel)
    (hbad : validateOrderData od = some e) :
    (handleOrderSubmit st od healthy remote).network = false ∧
    (handleOrderSubmit st od healthy remote).final.plots = st.plots ∧
    (handleOrderSubmit st od healthy remote).final.orderError
      = some ("Failed to submit order: " ++ e) ∧
    (handleOrderSubmit st od healthy remote).mid
      = some { st with plots := optimisticUpdate st.plots sel.id
                       rendered := optimisticUpdate st.plots sel.id
                       orderError := none } := by
  unfold handleOrderSubmit PlotService.createOrder
  rw [hsel, hbad]
  exact ⟨rfl, rfl, rfl, rfl⟩

/-- Witness for C3 (amended): the invalid-email applicant at the
concrete UI state. -/
theorem reserve_validation_failfast_witness :
    uiEx.selectedPlot = some plot001 ∧
    validateOrderData odBadEmail = some "Please enter a valid email address" ∧
    (handleOrderSubmit uiEx odBadEmail true (.ok morderEx)).final.plots
      = uiEx.plots :=
  ⟨rfl, by decide,
   (reserve_validation_failfast uiEx plot001 odBadEmail
      "Please enter a valid email address" true (.ok morderEx)
      rfl (by decide)).2.1⟩

/-- `find?` after `setPendingFirst` returns the found plot with its
status set to `pending`. -/
theorem find_setPendingFirst (ps : List Plot) (pid : String) (p : Plot)
    (h : (ps.find? fun q => q.id = pid) = some p) :
    ((setPendingFirst ps pid).find? fun q => q.id = pid)
      = some { p with status := .pending } := by
  induction ps with
  | nil => simp [List.find?] at h
  | cons a rest ih =>
    by_cases ha : a.id = pid
    · rw [List.find?_cons_of_pos _ (by simpa using ha)] at h
      obtain rfl : a = p := Option.some.inj h
      simp only [setPendingFirst, if_pos ha]
      rw [List.find?_cons_of_pos _ (by simpa using ha)]
    · rw [List.find?_cons_of_neg _ (by simpa using ha)] at h
      simp only [setPendingFirst, if_neg ha]
      rw [List.find?_cons_of_neg _ (by simpa using ha)]
      exact ih h

/-- C10: mock-backend commit atomicity.  A missing plot or a
non-`available` plot makes `createOrder` throw with the plot set and the
order list unchanged; an available plot yields exactly one appended
`pending` order and flips the plot's status to `pending`, after which a
second `createOrder` on the same plot throws and appends nothing. -/
theorem mock_createOrder_atomic :
    (∀ (s : MockState) (pid : String) (od : OrderData),
      (s.plots.find? fun q => q.id = pid) = none →
      MockDataService.createOrder s pid od = (.error "Plot not found", s)) ∧
    (∀ (s : MockState) (pid : String) (od : OrderData) (p : Plot),
      (s.plots.find? fun q => q.id = pid) = some p → p.status ≠ .available →
      MockDataService.createOrder s pid od =
        (.error ("Plot is not available for ordering. Current status: " ++
          p.status.toStr), s)) ∧
    (∀ (s : MockState) (pid : String) (od : OrderData) (p : Plot),
      (s.plots.find? fun q => q.id = pid) = some p → p.status = .available →
      MockDataService.createOrder s pid od =
        (.ok (mkMockOrder s.counter pid p od),
         { plots := setPendingFirst s.plots pid
           orders := s.orders ++ [mkMockOrder s.counter pid p od]
           counter := s.counter + 1 }) ∧
      (mkMockOrder s.counter pid p od).status = "pending" ∧
      ((setPendingFirst s.plots pid).find? fun q => q.id = pid)
        = some { p with status := .pending } ∧
      (∀ od2 : OrderData,
        MockDataService.createOrder
          { plots := setPendingFirst s.plots pid
            orders := s.orders ++ [mkMockOrder s.counter pid p od]
            counter := s.counter + 1 } pid od2
        = (.error "Plot is not available for ordering. Current status: pending",
           { plots := setPendingFirst s.plots pid
             orders := s.orders ++ [mkMockOrder s.counter pid p od]
             counter := s.counter + 1 }))) := by
  refine ⟨?_, ?_, ?_⟩
  · intro s pid od h
    unfold MockDataService.createOrder
    rw [h]
  · intro s pid od p h hp
    unfold MockDataService.createOrder
    rw [h]
    simp [hp]
  · intro s pid od p h hp
    have hfind2 := find_setPendingFirst s.plots pid p h
    refine ⟨?_, rfl, hfind2, ?_⟩
    · unfold MockDataService.createOrder
      rw [h]
      dsimp only
      rw [if_neg (by simp [hp])]
    · intro od2
      unfold MockDataService.createOrder
      rw [hfind2]
      dsimp only
      rw [if_pos (by decide : PlotStatus.pending ≠ PlotStatus.available)]
      rfl

/-- Witness for C10: the three behaviours at the concrete mock state —
unknown plot, taken plot, then a successful reservation of `plot-001`
whose repeat is rejected with nothing appended. -/
theorem mock_createOrder_atomic_witness :
    MockDataService.createOrder mockEx "plot-999" odValid
      = (.error "Plot not found", mockEx) ∧
    MockDataService.createOrder mockEx "plot-002" odValid
      = (.error "Plot is not available for ordering. Current status: taken",
         mockEx) ∧
    MockDataService.createOrder mockEx "plot-001" odValid
      = (.ok (mkMockOrder 1 "plot-001" plot001 odValid),
         { plots := setPendingFirst mockEx.plots "plot-001"
           orders := [mkMockOrder 1 "plot-001" plot001 odValid]
           counter := 2 }) ∧
    MockDataService.createOrder
      { plots := setPendingFirst mockEx.plots "plot-001"
        orders := [mkMockOrder 1 "plot-001" plot001 odValid]
        counter := 2 } "plot-001" odValid
      = (.error "Plot is not available for ordering. Current status: pending",
         { plots := setPendingFirst mockEx.plots "plot-001"
           orders := [mkMockOrder 1 "plot-001" plot001 odValid]
           counter := 2 }) := by
  refine ⟨?_, ?_, ?_, ?_⟩
  · exact mock_createOrder_atomic.1 mockEx "plot-999" odValid (by rfl)
  · exact mock_createOrder_atomic.2.1 mockEx "plot-002" odValid plot002
      (by rfl) (by decide)
  · exact (mock_createOrder_atomic.2.2 mockEx "plot-001" odValid plot001
      (by rfl) rfl).1
  · exact (mock_createOrder_atomic.2.2 mockEx "plot-001" odValid plot001
      (by rfl) rfl).2.2.2 odValid

/-- `'Unknown'`-defaulting never yields the empty string. -/
theorem jsOrStr_unknown_ne_empty (sopt : Option String) :
    jsOrStr sopt "Unknown" ≠ "" := by
  unfold jsOrStr
  cases sopt with
  | none => decide
  | some v =>
    by_cases hv : v = ""
    · simp [hv]
    · simp [hv]

/-- C8 counterexample: `getPlotById` (and the identical `searchPlots`
pass-through) does not normalize: a feature whose raw `area_hectares`
parses to −5 and whose location strings are absent is returned with the
negative area and an absent district, violating the claimed invariant
on the get-by-id and search paths. -/
theorem getPlotById_unnormalized :
    ((getPlotById rawNegFeature).map fun p => p.area_hectares)
      = some (.val (-5)) ∧
    ((getPlotById rawNegFeature).map fun p => p.district) = some none ∧
    ((searchPlotFromFeature rawNegFeature).map fun p => p.area_hectares)
      = some (.val (-5)) ∧
    (-5 : ℚ) < 0 := by
  exact ⟨rfl, rfl, rfl, by norm_num⟩

/-- C8 (amended): the normalization invariant holds on the load-all
path: every plot produced by `getAllPlots` has a finite non-negative
`area_hectares` (an unparseable raw value is coerced to 0) and
non-empty district/ward/village defaulting to "Unknown"; the get-by-id
and search transforms instead pass the parsed area and the raw
location strings through unchanged. -/
theorem plots_normalization :
    (∀ (features : List RawFeature) (p : PlotOut), p ∈ getAllPlots features →
      (∃ q : ℚ, p.area_hectares = .val q ∧ 0 ≤ q) ∧
      (∃ d, p.district = some d ∧ d ≠ "") ∧
      (∃ w, p.ward = some w ∧ w ≠ "") ∧
      (∃ v, p.village = some v ∧ v ≠ "")) ∧
    (∀ (props : RawProps) (g : RawGeometry) (p : PlotOut),
      plotFromFeature ⟨some props, some g⟩ = some p →
      props.area_parsed = .nan → p.area_hectares = .val 0) ∧
    (∀ (props : RawProps) (g : RawGeometry),
      getPlotById ⟨some props, some g⟩ = some
        { id := props.id
          plot_code := props.plot_code
          status := normalizeStatus props.status
          area_hectares := props.area_parsed
          district := props.district
          ward := props.ward
          village := props.village }) ∧
    (∀ (props : RawProps) (geom : Option RawGeometry),
      searchPlotFromFeature ⟨some props, geom⟩ = some
        { id := props.id
          plot_code := props.plot_code
          status := normalizeStatus props.status
          area_hectares := props.area_parsed
          district := props.district
          ward := props.ward
          village := props.village }) := by
  have hinv : ∀ (props : RawProps) (g : RawGeometry) (p : PlotOut),
      plotFromFeature ⟨some props, some g⟩ = some p →
      p = { id := props.id
            plot_code := props.plot_code
            status := normalizeStatus props.status
            area_hectares := .val (max 0 (jsOrNum props.area_parsed 0))
            district := some (jsOrStr props.district "Unknown")
            ward := some (jsOrStr props.ward "Unknown")
            village := some (jsOrStr props.village "Unknown") } := by
    intro props g p hpf
    unfold plotFromFeature at hpf
    dsimp only at hpf
    split_ifs at hpf
    exact (Option.some.inj hpf.symm)
  refine ⟨?_, ?_, ?_, ?_⟩
  · intro features p hp
    rw [getAllPlots, List.mem_filterMap] at hp
    obtain ⟨f, _, hpf⟩ := hp
    obtain ⟨op, og⟩ := f
    cases op with
    | none => simp [plotFromFeature] at hpf
    | some props =>
      cases og with
      | none => simp [plotFromFeature] at hpf
      | some g =>
        obtain rfl := hinv props g p hpf
        refine ⟨⟨_, rfl, le_max_left 0 _⟩,
          ⟨_, rfl, jsOrStr_unknown_ne_empty props.district⟩,
          ⟨_, rfl, jsOrStr_unknown_ne_empty props.ward⟩,
          ⟨_, rfl, jsOrStr_unknown_ne_empty props.village⟩⟩
  · intro props g p hpf hnan
    obtain rfl := hinv props g p hpf
    simp [hnan, jsOrNum]
  · intro props g
    rfl
  · intro props geom
    rfl

/-- Witness for C8 (amended): the concrete raw feature with negative
parsed area and absent strings is normalized by the load-all path. -/
theorem plots_normalization_witness :
    (({ id := some "plot-x", plot_code := some "PC-X",
        status := .pending, area_hectares := JsNum.val 0,
        district := some "Unknown", ward := some "Unknown",
        village := some "Unknown" } : PlotOut) ∈ getAllPlots [rawNegFeature]) ∧
    (∃ q : ℚ,
      ({ id := some "plot-x", plot_code := some "PC-X",
         status := .pending, area_hectares := JsNum.val 0,
         district := some "Unknown", ward := some "Unknown",
         village := some "Unknown" } : PlotOut).area_hectares = .val q ∧
      0 ≤ q) := by
  have hmem : ({ id := some "plot-x", plot_code := some "PC-X",
                 status := .pending, area_hectares := JsNum.val 0,
                 district := some "Unknown", ward := some "Unknown",
                 village := some "Unknown" } : PlotOut)
      ∈ getAllPlots [rawNegFeature] := by
    have heq : getAllPlots [rawNegFeature]
        = [{ id := some "plot-x", plot_code := some "PC-X",
             status := .pending, area_hectares := JsNum.val 0,
             district := some "Unknown", ward := some "Unknown",
             village := some "Unknown" }] := by rfl
    rw [heq]
    exact List.mem_singleton.mpr rfl
  exact ⟨hmem, (plots_normalization.1 [rawNegFeature] _ hmem).1⟩

/-- A coordinate accepted by `isValidCoordinate` is an array whose
first two entries are finite numbers. -/
theorem coordValid_twoFinite (c : JVal) (h : isValidCoordinate c = true) :
    coordTwoFinite c := by
  cases c with
  | num q => simp [isValidCoordinate] at h
  | nan => simp [isValidCoordinate] at h
  | inf => simp [isValidCoordinate] at h
  | other => simp [isValidCoordinate] at h
  | arr l =>
    cases l with
    | nil => simp [isValidCoordinate] at h
    | cons a l2 =>
      cases l2 with
      | nil => simp [isValidCoordinate] at h
      | cons b rest =>
        cases a <;> cases b <;> simp [isValidCoordinate] at h
        exact ⟨_, _, rest, rfl⟩

/-- A coordinate accepted by `isValidCoordinate` lies inside the
operating-region bounding box. -/
theorem coordValid_inBounds (c : JVal) (h : isValidCoordinate c = true) :
    coordInBounds c := by
  intro lng lat rest heq
  subst heq
  have h2 : ¬(lng < 29 ∨ lng > 41 ∨ lat < -12 ∨ lat > -0.5) := by
    intro hcon
    simp [isValidCoordinate, hcon] at h
  push_neg at h2
  exact ⟨h2.1, h2.2.1, h2.2.2.1, h2.2.2.2⟩

/-- Every ring position of a geometry accepted by `isValidGeometry`
passes the per-ring check. -/
theorem valid_imp_rings_ok (g : RawGeometry) (h : isValidGeometry g = true) :
    ∀ r ∈ geomRings g, ringOk r = true := by
  obtain ⟨gt, gc⟩ := g
  intro r hr
  cases gt with
  | none => simp [isValidGeometry] at h
  | some t =>
    by_cases htP : t = "Polygon"
    · subst htP
      cases gc with
      | none => simp [isValidGeometry] at h
      | some coords =>
        cases coords with
        | arr rings =>
          simp [isValidGeometry, List.all_eq_true] at h
          simp [geomRings] at hr
          exact h.2 r hr
        | num q => simp [isValidGeometry] at h
        | nan => simp [isValidGeometry] at h
        | inf => simp [isValidGeometry] at h
        | other => simp [isValidGeometry] at h
    · by_cases htM : t = "MultiPolygon"
      · subst htM
        cases gc with
        | none => simp [isValidGeometry] at h
        | some coords =>
          cases coords with
          | arr polys =>
            simp [isValidGeometry, List.all_eq_true] at h
            simp [geomRings, List.mem_flatMap] at hr
            obtain ⟨poly, hpoly, hrin⟩ := hr
            have h2 := h.2 poly hpoly
            cases poly with
            | arr rings2 =>
              simp [List.all_eq_true] at h2
              simp at hrin
              exact h2.2 r hrin
            | num q => simp at hrin
            | nan => simp at hrin
            | inf => simp at hrin
            | other => simp at hrin
          | num q => simp [isValidGeometry, htP] at h
          | nan => simp [isValidGeometry, htP] at h
          | inf => simp [isValidGeometry, htP] at h
          | other => simp [isValidGeometry, htP] at h
      · cases gc with
        | none => simp [isValidGeometry] at h
        | some coords => simp [isValidGeometry, htP, htM] at h

/-- C5: geometry validation soundness.  A geometry containing a ring
with fewer than 4 coordinate pairs, or a coordinate whose first two
entries are not finite numbers, or a coordinate outside the operating
region (lng 29..41, lat −12..−0.5), or whose `type` is not
Polygon/MultiPolygon, or whose coordinates are absent or an empty
array, fails `isValidGeometry`.  (The witness instantiates the spec's
3-point unclosed ring scenario.) -/
theorem isValidGeometry_sound (g : RawGeometry)
    (h : (∃ r ∈ geomRings g, ∃ cs, r = JVal.arr cs ∧ cs.length < 4)
       ∨ (∃ r ∈ geomRings g, ∃ cs, r = JVal.arr cs ∧
            ∃ c ∈ cs, ¬ coordTwoFinite c)
       ∨ (∃ r ∈ geomRings g, ∃ cs, r = JVal.arr cs ∧
            ∃ c ∈ cs, ¬ coordInBounds c)
       ∨ (g.gtype ≠ some "Polygon" ∧ g.gtype ≠ some "MultiPolygon")
       ∨ g.coordinates = none
       ∨ g.coordinates = some (JVal.arr [])) :
    isValidGeometry g = false := by
  by_contra hval
  rw [Bool.not_eq_false] at hval
  have hrok := valid_imp_rings_ok g hval
  obtain ⟨gt, gc⟩ := g
  rcases h with ⟨r, hr, cs, rfl, hlen⟩ | ⟨r, hr, cs, rfl, c, hc, hbad⟩
    | ⟨r, hr, cs, rfl, c, hc, hbad⟩ | ⟨h1, h2⟩ | hcnone | hcempty
  · have hro := hrok _ hr
    simp [ringOk] at hro
    omega
  · have hro := hrok _ hr
    simp [ringOk, List.all_eq_true] at hro
    exact hbad (coordValid_twoFinite c (hro.2 c hc))
  · have hro := hrok _ hr
    simp [ringOk, List.all_eq_true] at hro
    exact hbad (coordValid_inBounds c (hro.2 c hc))
  · cases gt with
    | none => simp [isValidGeometry] at hval
    | some t =>
      have ht1 : t ≠ "Polygon" := fun heq => h1 (by rw [heq])
      have ht2 : t ≠ "MultiPolygon" := fun heq => h2 (by rw [heq])
      cases gc with
      | none => simp [isValidGeometry] at hval
      | some coords => simp [isValidGeometry, ht1, ht2] at hval
  · subst hcnone
    cases gt with
    | none => simp [isValidGeometry] at hval
    | some t => simp [isValidGeometry] at hval
  · subst hcempty
    cases gt with
    | none => simp [isValidGeometry] at hval
    | some t =>
      by_cases htP : t = "Polygon"
      · subst htP
        simp [isValidGeometry] at hval
      · by_cases htM : t = "MultiPolygon"
        · subst htM
          simp [isValidGeometry, htP] at hval
        · simp [isValidGeometry, htP, htM] at hval

/-- Witness for C5: the 3-point unclosed ring
`[[39.20,-6.78],[39.21,-6.78],[39.21,-6.79]]` fails validation. -/
theorem isValidGeometry_sound_witness :
    isValidGeometry threePointRingGeom = false := by
  refine isValidGeometry_sound threePointRingGeom (Or.inl ?_)
  refine ⟨JVal.arr
      [.arr [.num 39.20, .num (-6.78)],
       .arr [.num 39.21, .num (-6.78)],
       .arr [.num 39.21, .num (-6.79)]], ?_, _, rfl, by decide⟩
  have heq : geomRings threePointRingGeom =
      [JVal.arr
        [.arr [.num 39.20, .num (-6.78)],
         .arr [.num 39.21, .num (-6.78)],
         .arr [.num 39.21, .num (-6.79)]]] := rfl
  rw [heq]
  exact List.mem_singleton.mpr rfl

/-- Witness for C7: the centroid of mock plot 001's square ring (a
closed clockwise convex ring) lies inside its bounding box. -/
theorem getPolygonCentroid_spec_witness :
    (39.2083 : ℚ) ≤ (getPolygonCentroid [ring001]).1 ∧
    (getPolygonCentroid [ring001]).1 ≤ 39.2093 ∧
    (-6.7843 : ℚ) ≤ (getPolygonCentroid [ring001]).2 ∧
    (getPolygonCentroid [ring001]).2 ≤ -6.7833 := by
  refine getPolygonCentroid_spec.1 [ring001] ring001 (39.2083, -6.7833)
    39.2083 39.2093 (-6.7843) (-6.7833) rfl rfl rfl (by decide) ?_ ?_ ?_
  · refine Or.inr ?_
    intro pq hpq
    simp only [ringPairs, ring001, List.tail_cons, List.zip_cons_cons,
      List.zip_nil_right, List.mem_cons, List.not_mem_nil, or_false] at hpq
    rcases hpq with rfl | rfl | rfl | rfl <;> norm_num [fanTerm]
  · intro p hp
    simp only [ring001, List.mem_cons, List.not_mem_nil, or_false] at hp
    rcases hp with rfl | rfl | rfl | rfl | rfl <;> norm_num
  · intro p hp
    simp only [ring001, List.mem_cons, List.not_mem_nil, or_false] at hp
    rcases hp with rfl | rfl | rfl | rfl | rfl <;> norm_num

end LandHub
